import Mathlib

/-
Verification development for the claudestine repository
(agent-driven workflow execution engine).

The definitions below are a shallow embedding of the Python source:
  src/claudestine/runner.py    (ClaudeRunner: run, run_shell, clear_session,
                                _build_command, _format_line,
                                _format_stream_event, _try_extract_session_id)
  src/claudestine/workflow.py  (WorkflowExecutor.execute, _handle_key_action)
  src/claudestine/config.py    (Step, StepType, Workflow data model)

External collaborators are modelled as oracles passed in as parameters:
  - the child process is an oracle producing a list of raw output lines and
    an exit code;
  - json.loads is an abstract parameter jparse : String -> Option Json
    (the Python standard library is not repository code); a valid-JSON line
    maps to some value, a JSONDecodeError to none;
  - re.search with re.IGNORECASE is an abstract parameter
    matches : String -> String -> Bool (pattern, line); concrete witnesses
    instantiate it with case-insensitive substring search, which is what
    re.search computes for metacharacter-free patterns;
  - the shell is an oracle exec : String -> Int × List String mapping a
    command to its exit code and output lines.

Python exceptions are modelled with Except PyErr; a Python function that
cannot raise returns a plain value.
-/

namespace Claudestine

/-- JSON values as produced by json.loads.  Numbers are modelled as integers
(the payload of a number never influences control flow in the embedded code
beyond truthiness and display). -/
inductive Json where
  | null
  | bool (b : Bool)
  | num (n : Int)
  | str (s : String)
  | arr (xs : List Json)
  | obj (kvs : List (String × Json))

/-- Python exception classes that the embedded code can raise. -/
inductive PyErr where
  | typeError
  | attributeError
  | valueError

/-- str(e) for a caught exception: run() stores this in ClaudeResult.error.
The exact message text of a Python exception is abstracted; no claim depends
on the message content, only on whether error is populated. -/
def PyErr.message : PyErr → String
  | .typeError => "TypeError"
  | .attributeError => "AttributeError"
  | .valueError => "ValueError"

/- ---------------------------------------------------------------------
   String helpers (models of Python str operations and of the two concrete
   regular expressions that appear literally in runner.py).
--------------------------------------------------------------------- -/

/-- pat is a prefix of s (character lists). -/
def leadsWith : List Char → List Char → Bool
  | [], _ => true
  | _ :: _, [] => false
  | p :: ps, c :: cs => p == c && leadsWith ps cs

/-- pat occurs somewhere in s (character lists); models the Python
operator in for substring search. -/
def hasSub (pat : List Char) : List Char → Bool
  | [] => leadsWith pat []
  | c :: rest => leadsWith pat (c :: rest) || hasSub pat rest

/-- Python: pat in s (substring containment). -/
def strContains (s pat : String) : Bool := hasSub pat.toList s.toList

/-- Python str.rstrip(): drop trailing whitespace.  List-based (rather than
String.trimRight) so that the kernel can evaluate it on closed inputs. -/
def rstrip (s : String) : String :=
  String.mk (s.toList.reverse.dropWhile Char.isWhitespace).reverse

/-- Python str.strip(): drop leading and trailing whitespace. -/
def pstrip (s : String) : String :=
  String.mk ((s.toList.dropWhile Char.isWhitespace).reverse.dropWhile
    Char.isWhitespace).reverse

/-- Python str.lower() (ASCII case mapping). -/
def lowerStr (s : String) : String := String.mk (s.toList.map Char.toLower)

/-- Character class [@-Z\\-_] of the ANSI-escape regex in _format_line:
0x40-0x5A or 0x5C-0x5F. -/
def isAnsiSingle (c : Char) : Bool :=
  (0x40 ≤ c.toNat && c.toNat ≤ 0x5A) || (0x5C ≤ c.toNat && c.toNat ≤ 0x5F)

/-- CSI parameter byte [0-?] (0x30-0x3F). -/
def isParamByte (c : Char) : Bool := 0x30 ≤ c.toNat && c.toNat ≤ 0x3F

/-- CSI intermediate byte, the class from space to slash (0x20-0x2F). -/
def isInterByte (c : Char) : Bool := 0x20 ≤ c.toNat && c.toNat ≤ 0x2F

/-- CSI final byte [@-~] (0x40-0x7E). -/
def isFinalByte (c : Char) : Bool := 0x40 ≤ c.toNat && c.toNat ≤ 0x7E

/-- After an ESC byte, try to match the rest of the ANSI escape regex of
_format_line (a single byte in 0x40-0x5A or 0x5C-0x5F, or a CSI sequence:
a literal bracket, parameter bytes, intermediate bytes, one final byte);
returns the characters after the match, or none when the regex does not
match at this ESC. -/
def ansiSuffix : List Char → Option (List Char)
  | [] => none
  | c :: cs =>
    if isAnsiSingle c then some cs
    else if c == '[' then
      let cs1 := cs.dropWhile isParamByte
      let cs2 := cs1.dropWhile isInterByte
      match cs2 with
      | f :: rest => if isFinalByte f then some rest else none
      | [] => none
    else none

/-- Left-to-right non-overlapping removal of ANSI escapes, as re.sub does;
fuel bounds the recursion (one unit per ESC-match step, initialised to the
string length, which always suffices since each match consumes characters). -/
def stripAnsiAux : Nat → List Char → List Char
  | 0, s => s
  | _ + 1, [] => []
  | fuel + 1, c :: cs =>
    if c == '\x1B' then
      match ansiSuffix cs with
      | some rest => stripAnsiAux fuel rest
      | none => c :: stripAnsiAux fuel cs
    else c :: stripAnsiAux fuel cs

/-- ansi_escape.sub("", line) from _format_line. -/
def stripAnsi (s : String) : String := String.mk (stripAnsiAux s.length s.toList)

/-- Try to match the fallback regex "session_id":\s*"([^"]+)" at the head of
the character list; returns the captured group. -/
def sessionIdAt (s : List Char) : Option String :=
  let key := "\"session_id\":".toList
  if leadsWith key s then
    let rest := (s.drop key.length).dropWhile (fun c => c.isWhitespace)
    match rest with
    | '\"' :: afterQuote =>
      let tok := afterQuote.takeWhile (fun c => c ≠ '\"')
      let afterTok := afterQuote.dropWhile (fun c => c ≠ '\"')
      match afterTok with
      | '\"' :: _ => if tok.isEmpty then none else some (String.mk tok)
      | _ => none
    | _ => none
  else none

/-- re.search of the fallback pattern "session_id":\s*"([^"]+)" over the
whole line: first position where the pattern matches. -/
def findSessionId : List Char → Option String
  | [] => sessionIdAt []
  | c :: rest =>
    match sessionIdAt (c :: rest) with
    | some tok => some tok
    | none => findSessionId rest

/- ---------------------------------------------------------------------
   Data model (config.py).
--------------------------------------------------------------------- -/

/-- StepType from config.py. -/
inductive StepType where
  | claude
  | shell
  | internal
deriving DecidableEq

/-- Step from config.py (field defaults applied at construction sites). -/
structure Step where
  name : String
  type : StepType
  prompt : Option String
  commands : Option (List String)
  action : Option String
  stream : Bool
  stop_on : List String
  require_success : Bool
  skip_if_clean : Bool
  allowed_tools : Option (List String)

instance : Inhabited Step :=
  ⟨⟨"", StepType.claude, none, none, none, true, [], false, false, none⟩⟩

/-- ClaudeResult from runner.py.  session_id holds whatever Python value was
assigned to self._session_id (usually a string, but the code can store any
JSON value), hence Option Json. -/
structure ClaudeResult where
  success : Bool
  exit_code : Int
  output : String
  session_id : Option Json
  stop_reason : Option String
  error : Option String

/-- Mutable state of a ClaudeRunner instance: working_dir and allowed_tools
from __init__, _session_id, and the interrupted flag whose accessors
interrupt()/is_interrupted() are called by workflow.py and console.py but are
absent from runner.py (modelled from the spec below). -/
structure ClaudeRunner where
  working_dir : String
  allowed_tools : Option (List String)
  session_id : Option Json
  interrupted : Bool

/- ---------------------------------------------------------------------
   Json helpers (models of Python dict/str operations used by runner.py).
--------------------------------------------------------------------- -/

/-- dict lookup without default: data.get(k).  json.loads produces a dict,
so keys are assumed de-duplicated (json.loads keeps only one binding). -/
def jsonLookup (kvs : List (String × Json)) (k : String) : Option Json :=
  match kvs with
  | [] => none
  | (k1, v) :: rest => if k1 = k then some v else jsonLookup rest k

/-- dict lookup with default: data.get(k, dflt). -/
def dictGet (kvs : List (String × Json)) (k : String) (dflt : Json) : Json :=
  (jsonLookup kvs k).getD dflt

/-- Python truthiness of a JSON-shaped value. -/
def jsonTruthy : Json → Bool
  | .null => false
  | .bool b => b
  | .num n => n ≠ 0
  | .str s => s ≠ ""
  | .arr xs => !xs.isEmpty
  | .obj kvs => !kvs.isEmpty

/-- v == "lit" in Python (a non-string never equals a string). -/
def isStrVal (j : Json) (s : String) : Bool :=
  match j with
  | .str t => t == s
  | _ => false

/-- data.get(k) == "lit" (missing key gives None, which never equals a string). -/
def optIsStr (o : Option Json) (s : String) : Bool :=
  match o with
  | some (.str t) => t == s
  | _ => false

/-- Display rendering of a value inside an f-string (str(x)); container
representations are approximate (display-only, no claim depends on them). -/
def pyStr : Json → String
  | .null => "None"
  | .bool true => "True"
  | .bool false => "False"
  | .num n => toString n
  | .str s => s
  | .arr _ => "[...]"
  | .obj _ => "\x7b...\x7d"

/-- session_id[:8]: slicing works on str and list, raises TypeError
otherwise. -/
def slice8 : Json → Except PyErr String
  | .str s => .ok (String.mk (s.toList.take 8))
  | .arr xs => .ok (pyStr (.arr (xs.take 8)))
  | _ => .error .typeError

/-- f"{cost:.4f}": defined for numbers and booleans, ValueError for strings,
TypeError for the rest (as in CPython). -/
def formatF4 : Json → Except PyErr String
  | .num n => .ok (toString n ++ ".0000")
  | .bool true => .ok "1.0000"
  | .bool false => .ok "0.0000"
  | .str _ => .error .valueError
  | _ => .error .typeError

/-- Coerce a list of values to strings when they all are strings. -/
def asStrings : List Json → Option (List String)
  | [] => some []
  | .str s :: rest => (asStrings rest).map (fun l => s :: l)
  | _ :: _ => none

/-- "\n".join(lines): elements must all be strings, else TypeError. -/
def pyJoinNewline (items : List Json) : Except PyErr String :=
  match asStrings items with
  | some strs => .ok (String.intercalate "\n" strs)
  | none => .error .typeError

/-- "\n".join for plain string lists (used for output accumulation). -/
def joinNL (lines : List String) : String := String.intercalate "\n" lines

/- ---------------------------------------------------------------------
   ClaudeRunner._format_stream_event (runner.py lines 283-319).
--------------------------------------------------------------------- -/

/-- The for-loop over the content items of an assistant message: text items
with truthy text are collected; tool_use items contribute a rendered line;
a non-dict item raises AttributeError at item.get. -/
def collectContentItems : List Json → Except PyErr (List Json)
  | [] => .ok []
  | .obj ikvs :: rest =>
    let head :=
      if optIsStr (jsonLookup ikvs "type") "text" then
        let text := dictGet ikvs "text" (.str "")
        if jsonTruthy text then [text] else []
      else if optIsStr (jsonLookup ikvs "type") "tool_use" then
        let tool := dictGet ikvs "name" (.str "unknown")
        [Json.str ("[cyan]> Using tool: " ++ pyStr tool ++ "[/cyan]")]
      else []
    (collectContentItems rest).map (fun tail => head ++ tail)
  | _ :: _ => .error .attributeError

/-- The assistant branch of _format_stream_event:
message = data.get("message", dict()); content = message.get("content", list());
iterate the items and join with newlines (empty collection gives ""). -/
def formatAssistant (kvs : List (String × Json)) : Except PyErr String :=
  match dictGet kvs "message" (.obj []) with
  | .obj mkvs =>
    match dictGet mkvs "content" (.arr []) with
    | .arr items =>
      match collectContentItems items with
      | .ok lines => if lines.isEmpty then .ok "" else pyJoinNewline lines
      | .error e => .error e
    | .str s =>
      -- iterating a string yields one-character strings, whose .get raises
      if s.isEmpty then .ok "" else .error .attributeError
    | .obj okvs =>
      -- iterating a dict yields its keys (strings), whose .get raises
      if okvs.isEmpty then .ok "" else .error .attributeError
    | _ => .error .typeError  -- int, bool, None: not iterable
  | _ => .error .attributeError  -- a non-dict message has no .get

/-- _format_stream_event.  Besides producing the display string it mutates
self._session_id on system/init events; for an init event the assignment
happens before the f-string slice, so the new value is stored even when the
slice raises.  Returns (new _session_id, display string or exception). -/
def ClaudeRunner.format_stream_event (data : Json) (sid : Option Json) :
    Option Json × Except PyErr String :=
  match data with
  | .obj kvs =>
    let eventType := dictGet kvs "type" (.str "")
    if isStrVal eventType "system" && optIsStr (jsonLookup kvs "subtype") "init" then
      let sessionId := dictGet kvs "session_id" (.str "")
      match slice8 sessionId with
      | .ok shown => (some sessionId, .ok ("[dim]Session: " ++ shown ++ "...[/dim]"))
      | .error e => (some sessionId, .error e)
    else if isStrVal eventType "assistant" then
      (sid, formatAssistant kvs)
    else if isStrVal eventType "tool_result" then
      (sid, .ok "[dim]> Tool completed[/dim]")
    else if isStrVal eventType "result" then
      let result := dictGet kvs "result" (.str "")
      if jsonTruthy result then
        let cost := dictGet kvs "total_cost_usd" (.num 0)
        match formatF4 cost with
        | .ok c => (sid, .ok ("[green]Done[/green] [dim]($" ++ c ++ ")[/dim]"))
        | .error e => (sid, .error e)
      else (sid, .ok "")
    else (sid, .ok "")
  | _ => (sid, .error .attributeError)  -- only a dict has .get

/- ---------------------------------------------------------------------
   ClaudeRunner._format_line (runner.py lines 255-281).
--------------------------------------------------------------------- -/

/-- The plain-text fallback of _format_line (taken when json.loads raises):
ANSI escapes stripped, then colour markup chosen from the content. -/
def plainFormat (line : String) : String :=
  let clean := stripAnsi line
  if pstrip clean = "" then ""
  else if leadsWith "> ".toList clean.toList then "[cyan]" ++ clean ++ "[/cyan]"
  else if strContains (lowerStr clean) "error" then "[red]" ++ clean ++ "[/red]"
  else if strContains (lowerStr clean) "success" || strContains clean "✓" then
    "[green]" ++ clean ++ "[/green]"
  else clean

/-- _format_line: blank lines give ""; a line json.loads accepts goes to
_format_stream_event (whose exceptions are NOT caught here: the try/except
only catches JSONDecodeError); otherwise the plain-text fallback. -/
def ClaudeRunner.format_line (jparse : String → Option Json) (line : String)
    (sid : Option Json) : Option Json × Except PyErr String :=
  if pstrip line = "" then (sid, .ok "")
  else
    match jparse line with
    | some data => ClaudeRunner.format_stream_event data sid
    | none => (sid, .ok (plainFormat line))

/- ---------------------------------------------------------------------
   ClaudeRunner._try_extract_session_id (runner.py lines 321-333).
--------------------------------------------------------------------- -/

/-- The regex fallback of _try_extract_session_id: on a match the capture is
stored, otherwise the session id is left unchanged. -/
def regexFallback (line : String) (sid : Option Json) : Option Json :=
  match findSessionId line.toList with
  | some tok => some (.str tok)
  | none => sid

/-- _try_extract_session_id: guarded by the substring test
"session_id" in line; inside the try, json.loads runs and
"session_id" in data / data["session_id"] follow Python semantics; both
JSONDecodeError and TypeError fall back to the regex. -/
def ClaudeRunner.try_extract_session_id (jparse : String → Option Json)
    (line : String) (sid : Option Json) : Option Json :=
  if strContains line "session_id" then
    match jparse line with
    | some (.obj kvs) =>
      match jsonLookup kvs "session_id" with
      | some v => some v
      | none => sid
    | some (.str s) =>
      -- "session_id" in <str> is substring search; when it succeeds, the
      -- subscript data["session_id"] raises TypeError, caught, fallback
      if strContains s "session_id" then regexFallback line sid else sid
    | some (.arr xs) =>
      -- "session_id" in <list> is membership; when it succeeds, the
      -- subscript raises TypeError, caught, fallback
      if xs.any (fun j => isStrVal j "session_id") then regexFallback line sid else sid
    | some _ =>
      -- "session_id" in <int/bool/None> raises TypeError, caught, fallback
      regexFallback line sid
    | none => regexFallback line sid  -- JSONDecodeError, caught, fallback
  else sid

/- ---------------------------------------------------------------------
   ClaudeRunner._build_command / clear_session / interrupt (runner.py).
--------------------------------------------------------------------- -/

/-- _build_command.  The Python list may hold a non-string _session_id, so
elements are Json values (string literals appear as Json.str). -/
def ClaudeRunner.build_command (self : ClaudeRunner) (prompt : String)
    (streaming : Bool) : List Json :=
  let cmd := [Json.str "claude", Json.str "-p", Json.str prompt]
  let cmd := cmd ++ [Json.str "--dangerously-skip-permissions"]
  let cmd := cmd ++ (if streaming then
      [Json.str "--output-format", Json.str "stream-json", Json.str "--verbose"]
    else [])
  let cmd := cmd ++ (match self.allowed_tools with
    | some ts =>
      if ts.isEmpty then []  -- an empty list is falsy
      else [Json.str "--allowedTools", Json.str (String.intercalate "," ts)]
    | none => [])
  cmd ++ (match self.session_id with
    | some sidv => if jsonTruthy sidv then [Json.str "--resume", sidv] else []
    | none => [])

/-- clear_session: self._session_id = None. -/
def ClaudeRunner.clear_session (self : ClaudeRunner) : ClaudeRunner :=
  { self with session_id := none }

/-- Modelled from the spec: ClaudeRunner.interrupt is called by
WorkflowExecutor._handle_key_action and by Console, but no such method is
defined in src/claudestine/runner.py.  Per the spec it requests cooperative
cancellation of the running child process and sets an interrupted flag
readable via is_interrupted(), callable from another thread. -/
def ClaudeRunner.interrupt (self : ClaudeRunner) : ClaudeRunner :=
  { self with interrupted := true }

/-- Modelled from the spec: ClaudeRunner.is_interrupted reads the flag set
by interrupt(); no such method is defined in src/claudestine/runner.py. -/
def ClaudeRunner.is_interrupted (self : ClaudeRunner) : Bool := self.interrupted

/- ---------------------------------------------------------------------
   ClaudeRunner.run (runner.py lines 45-135).
   The child process is the (procLines, exitCode) oracle; output and
   on_line display callbacks are not modelled (they receive values and
   return None).
--------------------------------------------------------------------- -/

/-- The loop-local state of run(): all_output, stop_reason, and the
current self._session_id. -/
structure StreamAcc where
  all_output : List String
  stop_reason : Option String
  session_id : Option Json

/-- The inner for-loop over stop_patterns: every match overwrites
stop_reason (there is no first-match guard and no break). -/
def scanPatterns (reMatch : String → String → Bool) (stopPatterns : List String)
    (line : String) (sr : Option String) : Option String :=
  stopPatterns.foldl
    (fun r pattern =>
      if reMatch pattern line then some ("Pattern matched: " ++ pattern) else r)
    sr

/-- One iteration of the streaming for-loop of run(): rstrip the raw line,
skip it when empty, append to all_output, format (an exception here
propagates to the outer except handler: the second component carries
str(e)), scan stop patterns when the list is truthy, then
_try_extract_session_id. -/
def ClaudeRunner.process_line (reMatch : String → String → Bool)
    (jparse : String → Option Json) (stopPatterns : List String)
    (acc : StreamAcc) (rawLine : String) : StreamAcc × Option String :=
  let line := rstrip rawLine
  if line = "" then (acc, none)
  else
    let acc1 : StreamAcc := { acc with all_output := acc.all_output ++ [line] }
    match ClaudeRunner.format_line jparse line acc1.session_id with
    | (sid, .error e) => ({ acc1 with session_id := sid }, some e.message)
    | (sid, .ok _) =>
      let sr := if stopPatterns.isEmpty then acc1.stop_reason
                else scanPatterns reMatch stopPatterns line acc1.stop_reason
      let sid2 := ClaudeRunner.try_extract_session_id jparse line sid
      ({ acc1 with stop_reason := sr, session_id := sid2 }, none)

/-- The streaming for-loop of run(); stops early when an exception is
raised (its message is the second component). -/
def ClaudeRunner.stream_lines (reMatch : String → String → Bool)
    (jparse : String → Option Json) (stopPatterns : List String)
    (acc : StreamAcc) : List String → StreamAcc × Option String
  | [] => (acc, none)
  | l :: ls =>
    match ClaudeRunner.process_line reMatch jparse stopPatterns acc l with
    | (acc1, some e) => (acc1, some e)
    | (acc1, none) => ClaudeRunner.stream_lines reMatch jparse stopPatterns acc1 ls

/-- Loop state at the top of run(). -/
def initAcc (self : ClaudeRunner) : StreamAcc := ⟨[], none, self.session_id⟩

/-- run(): builds the command, streams the oracle lines, then returns
ClaudeResult(exit_code==0, ...) on the normal path, or the except-handler
result (success=False, exit_code=-1, output so far, error=str(e)) when an
exception escaped the loop; the session_id keyword is not passed on the
except path, so the result field defaults to None there, while the runner
instance keeps the extracted value in both cases. -/
def ClaudeRunner.run (reMatch : String → String → Bool)
    (jparse : String → Option Json) (self : ClaudeRunner) (prompt : String)
    (stopPatterns : List String) (procLines : List String) (exitCode : Int) :
    ClaudeResult × ClaudeRunner :=
  let _cmd := ClaudeRunner.build_command self prompt true
  let r := ClaudeRunner.stream_lines reMatch jparse stopPatterns (initAcc self) procLines
  let self1 := { self with session_id := r.1.session_id }
  match r.2 with
  | some e => (⟨false, -1, joinNL r.1.all_output, none, none, some e⟩, self1)
  | none =>
    (⟨decide (exitCode = 0), exitCode, joinNL r.1.all_output,
      r.1.session_id, r.1.stop_reason, none⟩, self1)

/- ---------------------------------------------------------------------
   ClaudeRunner.run_shell (runner.py lines 137-221).
   The shell is the exec oracle; gitClean models the emptiness of the
   stripped stdout of git status --porcelain.
--------------------------------------------------------------------- -/

/-- rstrip each output line and drop the empty ones, as the inner read
loop of run_shell does before appending to all_output. -/
def effOutput (lines : List String) : List String :=
  (lines.map rstrip).filter (fun l => l ≠ "")

/-- The for-loop over commands: run each, accumulate its output, and stop
at the first nonzero exit code with that code and the command text as
error context. -/
def ClaudeRunner.run_shell_loop (exec : String → Int × List String)
    (acc : List String) : List String → ClaudeResult
  | [] => ⟨true, 0, joinNL acc, none, none, none⟩
  | cmd :: rest =>
    let r := exec cmd
    let acc1 := acc ++ effOutput r.2
    if r.1 ≠ 0 then
      ⟨false, r.1, joinNL acc1, none, none, some ("Command failed: " ++ cmd)⟩
    else ClaudeRunner.run_shell_loop exec acc1 rest

/-- run_shell: optional clean-tree short-circuit, then the command loop. -/
def ClaudeRunner.run_shell (exec : String → Int × List String) (gitClean : Bool)
    (commands : List String) (skipIfClean : Bool) : ClaudeResult :=
  if skipIfClean && gitClean then
    ⟨true, 0, "No changes to commit", none, some "clean", none⟩
  else ClaudeRunner.run_shell_loop exec [] commands

/- ---------------------------------------------------------------------
   WorkflowExecutor (workflow.py).
--------------------------------------------------------------------- -/

/-- KeyAction from ui/keyboard.py (CONTINUE is spelled cont; continue is a
reserved word). -/
inductive KeyAction where
  | pause
  | cont
  | manual
deriving DecidableEq

/-- The executor-side state touched by _handle_key_action: the runner, the
console paused/manual flags, and the single-slot _pending_action. -/
structure ExecutorState where
  runner : ClaudeRunner
  paused : Bool
  manual_mode : Bool
  pending_action : Option KeyAction

/-- _handle_key_action (workflow.py lines 172-189): stores the action in
the single slot, and on PAUSE/MANUAL interrupts the runner and pauses the
console (MANUAL additionally sets manual mode). -/
def WorkflowExecutor.handle_key_action (st : ExecutorState) (action : KeyAction) :
    ExecutorState :=
  let st1 : ExecutorState := { st with pending_action := some action }
  match action with
  | .pause => { st1 with runner := st1.runner.interrupt, paused := true }
  | .cont => { st1 with paused := false }
  | .manual =>
    { st1 with runner := st1.runner.interrupt, paused := true, manual_mode := true }

/-- The per-dispatch observation of the execution loop: result.success of
_execute_step and the value of self.runner.is_interrupted() right after it
(the flag is cleared before each dispatch, so a set flag means the step was
interrupted mid-invocation). -/
structure StepOutcome where
  success : Bool
  interrupted : Bool

instance : Inhabited StepOutcome := ⟨⟨false, false⟩⟩

/-- How the inner while-loop over step_index ends. -/
inductive PhaseResult where
  | completed
  | haltedFailure
  | outOfOutcomes
deriving DecidableEq

/-- A run of one phase: how it ended, the ordered (phase, step_index) pairs
dispatched, and the unconsumed step outcomes. -/
structure PhaseRun where
  result : PhaseResult
  dispatches : List (Nat × Nat)
  remaining : List StepOutcome

/-- The inner while step_index < len(steps) loop of execute() (workflow.py
lines 95-152), driven by an oracle list of step outcomes (one consumed per
dispatch; an exhausted list ends the model run).  Pause waiting, manual-mode
handling and logging are elided: they do not touch phase or step_index.
On interruption the loop re-enters with the same step_index; a failing step
halts only when require_success is set; otherwise step_index += 1.
The loop guard is checked before each dispatch; matching on the outcome
list first is equivalent since the guard consumes nothing. -/
def WorkflowExecutor.execute_steps (phase : Nat) (steps : List Step) :
    Nat → List StepOutcome → PhaseRun
  | stepIndex, [] =>
    if stepIndex < steps.length then ⟨.outOfOutcomes, [], []⟩
    else ⟨.completed, [], []⟩
  | stepIndex, o :: rest =>
    if stepIndex < steps.length then
      if o.interrupted then
        -- do not advance step_index; the same step will be retried
        let r := WorkflowExecutor.execute_steps phase steps stepIndex rest
        ⟨r.result, (phase, stepIndex) :: r.dispatches, r.remaining⟩
      else if !o.success && (steps.getD stepIndex default).require_success then
        ⟨.haltedFailure, [(phase, stepIndex)], rest⟩
      else
        -- only advance to next step on completion without interruption
        let r := WorkflowExecutor.execute_steps phase steps (stepIndex + 1) rest
        ⟨r.result, (phase, stepIndex) :: r.dispatches, r.remaining⟩
    else ⟨.completed, [], o :: rest⟩

/-- How execute() ends. -/
inductive RunResult where
  | success
  | stepFailure
  | maxPhasesReached
  | outOfOutcomes
deriving DecidableEq

/-- The outer while phase < max_phases loop of execute() (workflow.py lines
85-165): budget counts the remaining phases out of max_phases = 50; after a
phase completes all its steps, _is_plan_complete is consulted (and only
then); on True the loop returns success; a require_success failure returns
failure immediately; exhausting the budget falls out of the loop into the
max-phases failure. -/
def WorkflowExecutor.execute_phases (steps : List Step) (planComplete : Nat → Bool) :
    Nat → Nat → List StepOutcome → RunResult
  | _, 0, _ => .maxPhasesReached
  | phase, budget + 1, outcomes =>
    let r := WorkflowExecutor.execute_steps (phase + 1) steps 0 outcomes
    match r.result with
    | .outOfOutcomes => .outOfOutcomes
    | .haltedFailure => .stepFailure
    | .completed =>
      if planComplete (phase + 1) then .success
      else WorkflowExecutor.execute_phases steps planComplete (phase + 1) budget r.remaining

/-- WorkflowExecutor.execute: phase starts at 0, max_phases = 50. -/
def WorkflowExecutor.execute (steps : List Step) (planComplete : Nat → Bool)
    (outcomes : List StepOutcome) : RunResult :=
  WorkflowExecutor.execute_phases steps planComplete 0 50 outcomes

/- ---------------------------------------------------------------------
   Concrete oracle instances used by witnesses and counterexamples.
   Each is consistent with the Python library function it stands for on
   every input it is applied to.
--------------------------------------------------------------------- -/

/-- re.search(pattern, line, re.IGNORECASE) for a metacharacter-free
pattern: case-insensitive substring containment. -/
def reSearchCI (pattern line : String) : Bool :=
  hasSub (lowerStr pattern).toList (lowerStr line).toList

/-- json.loads over a stream of plain diagnostic text: every line raises
JSONDecodeError. -/
def jnone : String → Option Json := fun _ => none

/-- json.loads restricted to the single line "[]" (a valid-JSON top-level
array); every other input is treated as a JSONDecodeError. -/
def jarrEmpty : String → Option Json :=
  fun s => if s = "[]" then some (Json.arr []) else none

/-- json.loads restricted to the single object line with a session_id key,
as json.loads parses it; other inputs raise JSONDecodeError. -/
def jsid : String → Option Json :=
  fun s =>
    if s = "\x7b\"session_id\": \"abc\"\x7d" then
      some (Json.obj [("session_id", Json.str "abc")])
    else none

/-- json.loads restricted to the single object line whose only key is
"note" (the substring session_id appears only inside the value); other
inputs raise JSONDecodeError. -/
def jnote : String → Option Json :=
  fun s =>
    if s = "\x7b\"note\": \"session_id\"\x7d" then
      some (Json.obj [("note", Json.str "session_id")])
    else none

/-- A fresh runner, as built by WorkflowExecutor.__init__. -/
def st0 : ClaudeRunner := ⟨"/wd", none, none, false⟩

/-- A runner holding a previously extracted session token "old". -/
def stOld : ClaudeRunner := ⟨"/wd", none, some (Json.str "old"), false⟩

/-- The shell oracle of the spec scenario: echo ok succeeds with output ok,
exit 1 fails with code 1, echo never succeeds with output never. -/
def execStub : String → Int × List String
  | "echo ok" => (0, ["ok"])
  | "exit 1" => (1, [])
  | "echo never" => (0, ["never"])
  | _ => (0, [])

/-- json.loads restricted to the single system/init object line without a
session_id key, as json.loads parses it; other inputs raise
JSONDecodeError. -/
def jinit : String → Option Json :=
  fun s =>
    if s = "\x7b\"type\": \"system\", \"subtype\": \"init\"\x7d" then
      some (Json.obj [("type", Json.str "system"), ("subtype", Json.str "init")])
    else none

/-- The evolution of self._session_id across one successfully formatted
line of run(): _format_line runs first (its system/init branch assigns
self._session_id), then _try_extract_session_id runs on the same line. -/
def sessionUpdate (jparse : String → Option Json) (line : String)
    (sid : Option Json) : Option Json :=
  ClaudeRunner.try_extract_session_id jparse line
    (ClaudeRunner.format_line jparse line sid).1

/-- The guard of the formatter's init branch as it appears in
_format_stream_event: data.get("type", "") == "system" and
data.get("subtype") == "init". -/
def isInitEvent (kvs : List (String × Json)) : Bool :=
  isStrVal (dictGet kvs "type" (Json.str "")) "system" &&
    optIsStr (jsonLookup kvs "subtype") "init"

/- =====================================================================
   Lemmas about the execution loop.
===================================================================== -/

lemma execute_steps_stop (phase : Nat) (steps : List Step) (i : Nat)
    (os : List StepOutcome) (hi : ¬ i < steps.length) :
    WorkflowExecutor.execute_steps phase steps i os = ⟨.completed, [], os⟩ := by
  cases os <;> simp [WorkflowExecutor.execute_steps, hi]

lemma execute_steps_nil (phase : Nat) (steps : List Step) (i : Nat)
    (hi : i < steps.length) :
    WorkflowExecutor.execute_steps phase steps i [] = ⟨.outOfOutcomes, [], []⟩ := by
  simp [WorkflowExecutor.execute_steps, hi]

lemma execute_steps_cons (phase : Nat) (steps : List Step) (i : Nat)
    (o : StepOutcome) (rest : List StepOutcome) (hi : i < steps.length) :
    WorkflowExecutor.execute_steps phase steps i (o :: rest) =
      if o.interrupted then
        ⟨(WorkflowExecutor.execute_steps phase steps i rest).result,
         (phase, i) :: (WorkflowExecutor.execute_steps phase steps i rest).dispatches,
         (WorkflowExecutor.execute_steps phase steps i rest).remaining⟩
      else if !o.success && (steps.getD i default).require_success then
        ⟨.haltedFailure, [(phase, i)], rest⟩
      else
        ⟨(WorkflowExecutor.execute_steps phase steps (i + 1) rest).result,
         (phase, i) :: (WorkflowExecutor.execute_steps phase steps (i + 1) rest).dispatches,
         (WorkflowExecutor.execute_steps phase steps (i + 1) rest).remaining⟩ := by
  simp [WorkflowExecutor.execute_steps, hi]

/-- Every nonempty dispatch trace starts with the step index the loop was
entered at. -/
lemma execute_steps_head (phase : Nat) (steps : List Step) (i : Nat)
    (os : List StepOutcome) (d : Nat × Nat)
    (h : (WorkflowExecutor.execute_steps phase steps i os).dispatches ≠ []) :
    (WorkflowExecutor.execute_steps phase steps i os).dispatches.headD d = (phase, i) := by
  by_cases hi : i < steps.length
  · cases os with
    | nil => rw [execute_steps_nil phase steps i hi] at h; simp at h
    | cons o rest =>
      rw [execute_steps_cons phase steps i o rest hi]
      split
      · simp
      · split <;> simp
  · rw [execute_steps_stop phase steps i os hi] at h; simp at h

/-- Dispatch k of a phase consumes outcome k; when that outcome reports
interruption, dispatch k+1 carries the same (phase, step_index) pair. -/
lemma execute_steps_redispatch (phase : Nat) (steps : List Step) :
    ∀ (os : List StepOutcome) (i k : Nat) (d : Nat × Nat),
      k + 1 < (WorkflowExecutor.execute_steps phase steps i os).dispatches.length →
      (os.getD k default).interrupted = true →
      (WorkflowExecutor.execute_steps phase steps i os).dispatches.getD (k + 1) d =
        (WorkflowExecutor.execute_steps phase steps i os).dispatches.getD k d := by
  intro os
  induction os with
  | nil =>
    intro i k d hk _
    by_cases hi : i < steps.length
    · rw [execute_steps_nil phase steps i hi] at hk; simp at hk
    · rw [execute_steps_stop phase steps i [] hi] at hk; simp at hk
  | cons o rest ih =>
    intro i k d hk hint
    by_cases hi : i < steps.length
    · rw [execute_steps_cons phase steps i o rest hi] at hk ⊢
      by_cases ho : o.interrupted
      · simp only [ho, if_true] at hk ⊢
        cases k with
        | zero =>
          have hne : (WorkflowExecutor.execute_steps phase steps i rest).dispatches ≠ [] := by
            intro hnil
            rw [hnil] at hk
            simp at hk
          have hhead := execute_steps_head phase steps i rest d hne
          obtain ⟨hd, tl, heq⟩ := List.exists_cons_of_ne_nil hne
          rw [heq] at hhead ⊢
          simpa using hhead
        | succ k1 =>
          simp only [List.getD_cons_succ] at hk ⊢
          have hint1 : (rest.getD k1 default).interrupted = true := by
            simpa using hint
          exact ih i k1 d (by simpa using hk) hint1
      · cases k with
        | zero =>
          rw [List.getD_cons_zero] at hint
          rw [hint] at ho
          simp at ho
        | succ k1 =>
          by_cases hs : (!o.success && (steps.getD i default).require_success) = true
          · simp only [ho, if_false, hs, if_true] at hk
            simp at hk
          · simp only [ho, if_false, hs, Bool.false_eq_true] at hk ⊢
            simp only [List.getD_cons_succ] at hk ⊢
            have hint1 : (rest.getD k1 default).interrupted = true := by
              simpa using hint
            exact ih (i + 1) k1 d (by simpa using hk) hint1
    · rw [execute_steps_stop phase steps i (o :: rest) hi] at hk; simp at hk

/- =====================================================================
   Claim theorems.
===================================================================== -/

/-- C1: in the execution loop, a step whose dispatch observes the runner
reporting interruption is re-dispatched with both counters unchanged: the
k-th dispatch of a phase consumes the k-th step outcome, and when that
outcome has interrupted set, the (k+1)-st dispatch carries the same
(phase, step_index) pair; conversely step_index grows by one between
consecutive dispatches only when the consumed outcome was not
interrupted. -/
theorem c1_interrupted_redispatch_same_step (phase : Nat) (steps : List Step)
    (os : List StepOutcome) (i k : Nat) (d : Nat × Nat)
    (hk : k + 1 < (WorkflowExecutor.execute_steps phase steps i os).dispatches.length) :
    ((os.getD k default).interrupted = true →
      (WorkflowExecutor.execute_steps phase steps i os).dispatches.getD (k + 1) d =
        (WorkflowExecutor.execute_steps phase steps i os).dispatches.getD k d) ∧
    (((WorkflowExecutor.execute_steps phase steps i os).dispatches.getD (k + 1) d).2 =
        ((WorkflowExecutor.execute_steps phase steps i os).dispatches.getD k d).2 + 1 →
      (os.getD k default).interrupted = false) := by
  constructor
  · intro hint
    exact execute_steps_redispatch phase steps os i k d hk hint
  · intro hadv
    by_cases hint : (os.getD k default).interrupted = true
    · have heq := execute_steps_redispatch phase steps os i k d hk hint
      rw [heq] at hadv
      omega
    · simpa using hint

/-- Witness for C1: a two-step workflow whose first dispatch is interrupted;
the trace is [(1, 0), (1, 0), (1, 1)] and dispatch 1 repeats dispatch 0. -/
theorem c1_witness :
    (0 + 1 <
      (WorkflowExecutor.execute_steps 1 [default, default] 0
        [⟨false, true⟩, ⟨true, false⟩, ⟨true, false⟩]).dispatches.length) ∧
    ((([⟨false, true⟩, ⟨true, false⟩, ⟨true, false⟩] : List StepOutcome).getD 0
        default).interrupted = true) ∧
    (WorkflowExecutor.execute_steps 1 [default, default] 0
        [⟨false, true⟩, ⟨true, false⟩, ⟨true, false⟩]).dispatches.getD 1 (0, 0) =
      (WorkflowExecutor.execute_steps 1 [default, default] 0
        [⟨false, true⟩, ⟨true, false⟩, ⟨true, false⟩]).dispatches.getD 0 (0, 0) :=
  ⟨by decide, by decide,
    (c1_interrupted_redispatch_same_step 1 [default, default]
      [⟨false, true⟩, ⟨true, false⟩, ⟨true, false⟩] 0 0 (0, 0) (by decide)).1 (by decide)⟩

/-- C2: when the operator presses the pause key, _handle_key_action stores
the Pause intent in the single-slot _pending_action, interrupts the runner
(so the in-flight invocation subsequently reports is_interrupted() = true),
and pauses the console.  The interrupt()/is_interrupted() pair is modelled
from the spec as a flag on the runner state, since runner.py does not define
them; per the spec the flag write is safe from the listener thread. -/
theorem c2_pause_publishes_intent_and_interrupts (st : ExecutorState) :
    (WorkflowExecutor.handle_key_action st .pause).pending_action = some .pause ∧
    (WorkflowExecutor.handle_key_action st .pause).runner.is_interrupted = true ∧
    (WorkflowExecutor.handle_key_action st .pause).paused = true :=
  ⟨rfl, rfl, rfl⟩

/-- C3: continuation-token round-trip.  When an invocation leaves the runner
holding extracted session token t (a nonempty string), the next command
built for an agent invocation is exactly the fresh-session command (the one
built after clear_session, which carries no resume argument) extended with
the resume argument carrying t. -/
theorem c3_continuation_token_round_trip (reMatch : String → String → Bool)
    (jparse : String → Option Json) (self : ClaudeRunner) (prompt : String)
    (sp lines : List String) (ec : Int) (t : String) (prompt2 : String)
    (hsid : ((ClaudeRunner.run reMatch jparse self prompt sp lines ec).2).session_id =
      some (Json.str t))
    (ht : t ≠ "") :
    ClaudeRunner.build_command (ClaudeRunner.run reMatch jparse self prompt sp lines ec).2
        prompt2 true =
      ClaudeRunner.build_command
          ((ClaudeRunner.run reMatch jparse self prompt sp lines ec).2).clear_session
          prompt2 true ++ [Json.str "--resume", Json.str t] := by
  set st1 := (ClaudeRunner.run reMatch jparse self prompt sp lines ec).2 with hst
  unfold ClaudeRunner.build_command ClaudeRunner.clear_session
  rw [hsid]
  simp [jsonTruthy, ht]

/-- Witness for C3: a stream containing one session_id object leaves the
runner holding token "abc"; the next command ends in the resume argument and
equals the post-clear_session command plus that argument. -/
theorem c3_witness :
    ((ClaudeRunner.run reSearchCI jsid st0 "implement" []
        ["\x7b\"session_id\": \"abc\"\x7d"] 0).2).session_id = some (Json.str "abc") ∧
    ("abc" : String) ≠ "" ∧
    ClaudeRunner.build_command
        (ClaudeRunner.run reSearchCI jsid st0 "implement" []
          ["\x7b\"session_id\": \"abc\"\x7d"] 0).2 "next" true =
      ClaudeRunner.build_command
          ((ClaudeRunner.run reSearchCI jsid st0 "implement" []
            ["\x7b\"session_id\": \"abc\"\x7d"] 0).2).clear_session "next" true ++
        [Json.str "--resume", Json.str "abc"] :=
  ⟨rfl, by decide,
    c3_continuation_token_round_trip reSearchCI jsid st0 "implement" []
      ["\x7b\"session_id\": \"abc\"\x7d"] 0 "abc" "next" rfl (by decide)⟩

/-- In run_shell, the command loop stops at the first command whose exit
code is nonzero: the result carries that exit code, an error naming the
command text, and exactly the accumulated output of the commands up to and
including the failing one. -/
lemma run_shell_loop_first_failure (exec : String → Int × List String) :
    ∀ (commands : List String) (i : Nat) (acc : List String),
      i < commands.length →
      (exec (commands.getD i "")).1 ≠ 0 →
      (∀ j, j < i → (exec (commands.getD j "")).1 = 0) →
      ClaudeRunner.run_shell_loop exec acc commands =
        ⟨false, (exec (commands.getD i "")).1,
         joinNL (acc ++ (commands.take (i + 1)).flatMap (fun c => effOutput (exec c).2)),
         none, none, some ("Command failed: " ++ commands.getD i "")⟩ := by
  intro commands
  induction commands with
  | nil => intro i acc hi _ _; simp at hi
  | cons c cs ih =>
    intro i acc hi hfail hok
    cases i with
    | zero =>
      simp only [List.getD_cons_zero] at hfail ⊢
      simp [ClaudeRunner.run_shell_loop, hfail]
    | succ i1 =>
      have h0 : (exec c).1 = 0 := by
        have := hok 0 (by omega)
        simpa using this
      simp only [ClaudeRunner.run_shell_loop, h0, ne_eq, not_true_eq_false, if_false,
        not_false_eq_true, List.getD_cons_succ]
      rw [ih i1 (acc ++ effOutput (exec c).2) (by simpa using hi)
        (by simpa using hfail) (fun j hj => by simpa using hok (j + 1) (by omega))]
      congr 1
      rw [List.take_succ_cons, List.flatMap_cons, List.append_assoc]

/-- C5: run_shell executes the command sequence in order and stops at the
first command that exits nonzero: the result has success = false, that
command's exit code, an error referencing that command's text, and output
consisting of the lines of the commands run up to (and including) the
failing one — nothing from the commands after it. -/
theorem c5_shell_stops_at_first_failure (exec : String → Int × List String)
    (gitClean : Bool) (commands : List String) (i : Nat)
    (hi : i < commands.length)
    (hfail : (exec (commands.getD i "")).1 ≠ 0)
    (hok : ∀ j, j < i → (exec (commands.getD j "")).1 = 0) :
    ClaudeRunner.run_shell exec gitClean commands false =
      ⟨false, (exec (commands.getD i "")).1,
       joinNL ((commands.take (i + 1)).flatMap (fun c => effOutput (exec c).2)),
       none, none, some ("Command failed: " ++ commands.getD i "")⟩ := by
  have hskip : ClaudeRunner.run_shell exec gitClean commands false =
      ClaudeRunner.run_shell_loop exec [] commands := rfl
  rw [hskip, run_shell_loop_first_failure exec commands i [] hi hfail hok,
    List.nil_append]

/-- A block of non-interrupted outcomes that never hits a require_success
failure walks the phase to completion, dispatching every step in order and
leaving the rest of the outcome stream untouched. -/
lemma execute_steps_completes (phase : Nat) (steps : List Step) :
    ∀ (os rest : List StepOutcome) (i : Nat),
      i + os.length = steps.length →
      (∀ k, k < os.length → (os.getD k default).interrupted = false ∧
        ((os.getD k default).success = false →
          (steps.getD (i + k) default).require_success = false)) →
      WorkflowExecutor.execute_steps phase steps i (os ++ rest) =
        ⟨.completed, (List.range' i os.length).map (fun j => (phase, j)), rest⟩ := by
  intro os
  induction os with
  | nil =>
    intro rest i hlen _
    have hi : ¬ i < steps.length := by simp at hlen; omega
    rw [List.nil_append, execute_steps_stop phase steps i rest hi]
    simp [List.range']
  | cons o os1 ih =>
    intro rest i hlen hgood
    have hi : i < steps.length := by simp at hlen; omega
    rw [List.cons_append, execute_steps_cons phase steps i o (os1 ++ rest) hi]
    have h0 := hgood 0 (by simp)
    simp only [List.getD_cons_zero, Nat.add_zero] at h0
    have hcond : (!o.success && (steps.getD i default).require_success) = false := by
      cases hsucc : o.success with
      | true => simp
      | false =>
        simp only [Bool.not_false, Bool.true_and]
        exact h0.2 hsucc
    rw [h0.1, hcond]
    simp only [Bool.false_eq_true, if_false]
    rw [ih rest (i + 1) (by simp at hlen ⊢; omega)
      (fun k hk => by
        have hk1 := hgood (k + 1) (by simpa using Nat.succ_lt_succ hk)
        simp only [List.getD_cons_succ] at hk1
        have harith : i + 1 + k = i + (k + 1) := by omega
        rw [harith]
        exact hk1)]
    have hrange : List.range' i (os1.length + 1) = i :: List.range' (i + 1) os1.length :=
      List.range'_succ i os1.length 1
    simp [hrange]

/-- C6: for an uninterrupted failing step, the loop halts the run with
failure exactly when that step has require_success = true; with
require_success = false the loop proceeds to the next step_index, and a
whole phase of uninterrupted outcomes whose failures all land on
require_success = false steps completes with every step dispatched in
order, leaving step_index at N (no step skipped or reordered). -/
theorem c6_require_success_gates_halt :
    (∀ (steps : List Step) (phase i : Nat) (o : StepOutcome) (rest : List StepOutcome),
      i < steps.length → o.interrupted = false → o.success = false →
      (steps.getD i default).require_success = true →
      WorkflowExecutor.execute_steps phase steps i (o :: rest) =
        ⟨.haltedFailure, [(phase, i)], rest⟩) ∧
    (∀ (steps : List Step) (phase i : Nat) (o : StepOutcome) (rest : List StepOutcome),
      i < steps.length → o.interrupted = false → o.success = false →
      (steps.getD i default).require_success = false →
      WorkflowExecutor.execute_steps phase steps i (o :: rest) =
        ⟨(WorkflowExecutor.execute_steps phase steps (i + 1) rest).result,
         (phase, i) :: (WorkflowExecutor.execute_steps phase steps (i + 1) rest).dispatches,
         (WorkflowExecutor.execute_steps phase steps (i + 1) rest).remaining⟩) ∧
    (∀ (steps : List Step) (phase : Nat) (os : List StepOutcome),
      os.length = steps.length →
      (∀ k, k < os.length → (os.getD k default).interrupted = false ∧
        ((os.getD k default).success = false →
          (steps.getD k default).require_success = false)) →
      WorkflowExecutor.execute_steps phase steps 0 os =
        ⟨.completed, (List.range' 0 steps.length).map (fun j => (phase, j)), []⟩) := by
  refine ⟨?halt, ?cont, ?phase⟩
  · intro steps phase i o rest hi ho hsucc hreq
    rw [execute_steps_cons phase steps i o rest hi, ho, hsucc, hreq]
    simp
  · intro steps phase i o rest hi ho hsucc hreq
    rw [execute_steps_cons phase steps i o rest hi, ho, hsucc, hreq]
    simp
  · intro steps phase os hlen hgood
    have h := execute_steps_completes phase steps os [] 0 (by omega)
      (fun k hk => by simpa using hgood k hk)
    rw [List.append_nil] at h
    rw [h, hlen]

/-- Witness for C6: a two-step workflow whose first step fails without
require_success; the phase still completes with both steps dispatched in
order and step_index reaching 2. -/
theorem c6_witness :
    (([⟨false, false⟩, ⟨true, false⟩] : List StepOutcome).length =
      ([default, default] : List Step).length) ∧
    WorkflowExecutor.execute_steps 1 [default, default] 0
        [⟨false, false⟩, ⟨true, false⟩] =
      ⟨.completed, (List.range' 0 ([default, default] : List Step).length).map
        (fun j => (1, j)), []⟩ :=
  ⟨rfl,
    c6_require_success_gates_halt.2.2 [default, default] 1
      [⟨false, false⟩, ⟨true, false⟩] rfl (by decide)⟩

/-- A run that returns success must have found the first phase p whose
completion check answered true, with every earlier phase checked and
answered false. -/
lemma execute_phases_success_charact (steps : List Step) (pc : Nat → Bool) :
    ∀ (budget phase : Nat) (os : List StepOutcome),
      WorkflowExecutor.execute_phases steps pc phase budget os = .success →
      ∃ p, phase < p ∧ p ≤ phase + budget ∧ pc p = true ∧
        ∀ q, phase < q → q < p → pc q = false := by
  intro budget
  induction budget with
  | zero => intro phase os h; simp [WorkflowExecutor.execute_phases] at h
  | succ b ih =>
    intro phase os h
    simp only [WorkflowExecutor.execute_phases] at h
    split at h
    · simp at h
    · simp at h
    · split at h
      · rename_i hpc
        exact ⟨phase + 1, by omega, by omega, hpc, fun q hq1 hq2 => by omega⟩
      · rename_i hpc
        obtain ⟨p, h1, h2, h3, h4⟩ := ih (phase + 1) _ h
        refine ⟨p, by omega, by omega, h3, fun q hq1 hq2 => ?_⟩
        by_cases hq : q = phase + 1
        · subst hq
          simpa using hpc
        · exact h4 q (by omega) hq2

/-- When every completion check answers false and every step outcome is a
clean uninterrupted success, each phase consumes exactly one block of
steps-many outcomes and the run exhausts its phase budget. -/
lemma execute_phases_all_good_max (steps : List Step) (pc : Nat → Bool)
    (hpc : ∀ q, pc q = false) :
    ∀ (budget phase : Nat) (os : List StepOutcome),
      os.length = budget * steps.length →
      (∀ o ∈ os, o.interrupted = false ∧ o.success = true) →
      WorkflowExecutor.execute_phases steps pc phase budget os = .maxPhasesReached := by
  intro budget
  induction budget with
  | zero => intro phase os _ _; simp [WorkflowExecutor.execute_phases]
  | succ b ih =>
    intro phase os hlen hgood
    have htake : (os.take steps.length).length = steps.length := by
      rw [List.length_take, Nat.succ_mul] at *
      omega
    have hrun : WorkflowExecutor.execute_steps (phase + 1) steps 0 os =
        ⟨.completed,
         (List.range' 0 (os.take steps.length).length).map (fun j => (phase + 1, j)),
         os.drop steps.length⟩ := by
      conv_lhs => rw [← List.take_append_drop steps.length os]
      refine execute_steps_completes (phase + 1) steps (os.take steps.length)
        (os.drop steps.length) 0 (by omega) (fun k hk => ?_)
      have hmem : (os.take steps.length).getD k default ∈ os := by
        have hmem1 : (os.take steps.length).getD k default ∈ os.take steps.length := by
          rw [List.getD_eq_getElem _ _ hk]
          exact List.getElem_mem _
        exact (List.take_sublist steps.length os).mem hmem1
      have hg := hgood _ hmem
      exact ⟨hg.1, fun hfail => by rw [hg.2] at hfail; cases hfail⟩
    simp only [WorkflowExecutor.execute_phases, hrun]
    rw [hpc (phase + 1)]
    simp only [Bool.false_eq_true, if_false]
    refine ih (phase + 1) (os.drop steps.length) ?_
      (fun o ho => hgood o ((List.drop_sublist steps.length os).mem ho))
    rw [List.length_drop, hlen, Nat.succ_mul]
    omega

/-- C9: the execution loop halts with success only at a phase boundary,
immediately after the first phase whose completion check (consulted only
once a phase has completed all its steps) answers true: a successful run
exhibits a first true phase p ≤ 50 with every earlier check false; and a
run whose completion check never answers true (with clean uninterrupted
steps throughout) halts with the max-phases failure after the 50-phase
ceiling. -/
theorem c9_success_only_at_phase_boundary (steps : List Step) (pc : Nat → Bool)
    (os : List StepOutcome) :
    (WorkflowExecutor.execute steps pc os = .success →
      ∃ p, 1 ≤ p ∧ p ≤ 50 ∧ pc p = true ∧ ∀ q, 1 ≤ q → q < p → pc q = false) ∧
    ((∀ q, pc q = false) → (∀ o ∈ os, o.interrupted = false ∧ o.success = true) →
      os.length = 50 * steps.length →
      WorkflowExecutor.execute steps pc os = .maxPhasesReached) := by
  constructor
  · intro h
    obtain ⟨p, h1, h2, h3, h4⟩ := execute_phases_success_charact steps pc 50 0 os h
    exact ⟨p, by omega, by omega, h3, fun q hq1 hq2 => h4 q (by omega) hq2⟩
  · intro hpc hgood hlen
    exact execute_phases_all_good_max steps pc hpc 50 0 os hlen hgood

/-- Witness for C9: with an empty step list, a detector that never answers
true, and an empty outcome stream, the run exhausts all 50 phases and halts
with the max-phases failure. -/
theorem c9_witness :
    WorkflowExecutor.execute [] (fun _ => false) [] = .maxPhasesReached :=
  (c9_success_only_at_phase_boundary [] (fun _ => false) []).2 (fun _ => rfl)
    (fun o ho => absurd ho (List.not_mem_nil o)) rfl

/-- Witness for C5: the spec scenario invoke_shell(["echo ok", "exit 1",
"echo never"], skip_if_clean=False) fails with exit code 1, an error
referencing "exit 1", and output containing "ok" but not "never". -/
theorem c5_witness :
    ClaudeRunner.run_shell execStub false ["echo ok", "exit 1", "echo never"] false =
      ⟨false, 1, "ok", none, none, some ("Command failed: " ++ "exit 1")⟩ ∧
    strContains
      (ClaudeRunner.run_shell execStub false ["echo ok", "exit 1", "echo never"] false).output
      "ok" = true ∧
    strContains
      (ClaudeRunner.run_shell execStub false ["echo ok", "exit 1", "echo never"] false).output
      "never" = false :=
  ⟨c5_shell_stops_at_first_failure execStub false ["echo ok", "exit 1", "echo never"] 1
      (by decide) (by decide)
      (fun j hj => by
        have hj0 : j = 0 := by omega
        subst hj0
        rfl),
    by decide, by decide⟩

/-- When json.loads raises, _format_line leaves the session id unchanged
and returns the plain-text fallback without raising. -/
lemma format_line_none (jparse : String → Option Json) (line : String)
    (sid : Option Json) (h : jparse line = none) :
    ClaudeRunner.format_line jparse line sid =
      (sid, .ok (if pstrip line = "" then "" else plainFormat line)) := by
  unfold ClaudeRunner.format_line
  by_cases ht : pstrip line = "" <;> simp [ht, h]

/-- C7 (amended): for every input line that is not valid JSON, the
stream-line formatter produces a result without raising: the session id is
untouched and the line degrades to raw text with terminal control sequences
stripped (blank lines to "").  A line that IS valid JSON but not a JSON
object raises (see the counterexample), so the no-raise guarantee holds for
the non-JSON lines only. -/
theorem c7_non_json_lines_never_raise (jparse : String → Option Json)
    (line : String) (sid : Option Json) (h : jparse line = none) :
    ClaudeRunner.format_line jparse line sid =
      (sid, .ok (if pstrip line = "" then "" else plainFormat line)) :=
  format_line_none jparse line sid h

/-- Counterexample for C7: the line "[]" is valid JSON whose top-level value
is a list, not an object; json.loads succeeds, so the JSONDecodeError
handler is skipped, and _format_stream_event calls .get on the list,
raising AttributeError out of _format_line. -/
theorem c7_counterexample :
    ClaudeRunner.format_line jarrEmpty "[]" none =
      (none, Except.error PyErr.attributeError) := rfl

/-- Witness for C7: a plain diagnostic line formats without an exception. -/
theorem c7_witness :
    ClaudeRunner.format_line jnone "diagnostic text" none =
      (none, Except.ok "diagnostic text") :=
  c7_non_json_lines_never_raise jnone "diagnostic text" none rfl

/-- The truthiness guard on stop_patterns is redundant: scanning an empty
pattern list leaves the reason unchanged. -/
lemma scanPatterns_guard (reMatch : String → String → Bool) (sp : List String)
    (l : String) (r : Option String) :
    (if sp.isEmpty then r else scanPatterns reMatch sp l r) =
      scanPatterns reMatch sp l r := by
  cases sp <;> simp [scanPatterns]

lemma effOutput_cons_skip (l : String) (ls : List String) (h : rstrip l = "") :
    effOutput (l :: ls) = effOutput ls := by simp [effOutput, h]

lemma effOutput_cons_keep (l : String) (ls : List String) (h : rstrip l ≠ "") :
    effOutput (l :: ls) = rstrip l :: effOutput ls := by simp [effOutput, h]

/-- Streaming any batch of lines from which no exception escapes: the
output accumulates every nonempty stripped line, the stop reason is folded
line by line, and the session id is folded through the per-line update
(formatter first, then extractor). -/
lemma stream_lines_state (reMatch : String → String → Bool)
    (jparse : String → Option Json) (sp : List String) :
    ∀ (lines : List String) (acc : StreamAcc),
      (ClaudeRunner.stream_lines reMatch jparse sp acc lines).2 = none →
      (ClaudeRunner.stream_lines reMatch jparse sp acc lines).1.all_output =
          acc.all_output ++ effOutput lines ∧
      (ClaudeRunner.stream_lines reMatch jparse sp acc lines).1.stop_reason =
          (effOutput lines).foldl (fun r l => scanPatterns reMatch sp l r)
            acc.stop_reason ∧
      (ClaudeRunner.stream_lines reMatch jparse sp acc lines).1.session_id =
          (effOutput lines).foldl (fun s l => sessionUpdate jparse l s)
            acc.session_id := by
  intro lines
  induction lines with
  | nil => intro acc _; refine ⟨?_, rfl, rfl⟩; simp [ClaudeRunner.stream_lines, effOutput]
  | cons l ls ih =>
    intro acc hexc
    by_cases he : rstrip l = ""
    · have hproc : ClaudeRunner.process_line reMatch jparse sp acc l = (acc, none) := by
        unfold ClaudeRunner.process_line
        rw [if_pos he]
      simp only [ClaudeRunner.stream_lines, hproc] at hexc ⊢
      rw [effOutput_cons_skip l ls he]
      exact ih acc hexc
    · cases hfmt : ClaudeRunner.format_line jparse (rstrip l) acc.session_id with
      | mk sid res =>
        cases res with
        | error e =>
          have hproc : ClaudeRunner.process_line reMatch jparse sp acc l =
              ({ all_output := acc.all_output ++ [rstrip l],
                 stop_reason := acc.stop_reason,
                 session_id := sid }, some e.message) := by
            unfold ClaudeRunner.process_line
            rw [if_neg he]
            dsimp only
            rw [hfmt]
          simp only [ClaudeRunner.stream_lines, hproc] at hexc
          simp at hexc
        | ok out =>
          have hproc : ClaudeRunner.process_line reMatch jparse sp acc l =
              ({ all_output := acc.all_output ++ [rstrip l],
                 stop_reason := scanPatterns reMatch sp (rstrip l) acc.stop_reason,
                 session_id :=
                   ClaudeRunner.try_extract_session_id jparse (rstrip l) sid },
               none) := by
            unfold ClaudeRunner.process_line
            rw [if_neg he]
            dsimp only
            rw [hfmt]
            simp [scanPatterns_guard]
            intro hsp
            subst hsp
            rfl
          have hupd : ClaudeRunner.try_extract_session_id jparse (rstrip l) sid =
              sessionUpdate jparse (rstrip l) acc.session_id := by
            unfold sessionUpdate
            rw [hfmt]
          simp only [ClaudeRunner.stream_lines, hproc] at hexc ⊢
          obtain ⟨h1, h2, h3⟩ := ih _ hexc
          rw [effOutput_cons_keep l ls he]
          refine ⟨?_, ?_, ?_⟩
          · rw [h1]
            simp [List.append_assoc]
          · rw [h2]
            rfl
          · rw [h3, List.foldl_cons, hupd]

/-- The pattern loop stores the LAST matching pattern of the list: every
match overwrites stop_reason (there is no first-match guard). -/
lemma scanPatterns_last (reMatch : String → String → Bool) (l : String) :
    ∀ (sp : List String) (r : Option String),
      scanPatterns reMatch sp l r =
        match (sp.filter (fun p => reMatch p l)).getLast? with
        | some p => some ("Pattern matched: " ++ p)
        | none => r := by
  intro sp
  induction sp using List.reverseRecOn with
  | nil => intro r; simp [scanPatterns]
  | append_singleton sp1 p ihp =>
    intro r
    unfold scanPatterns
    rw [List.foldl_append]
    simp only [List.foldl_cons, List.foldl_nil]
    by_cases hm : reMatch p l
    · rw [if_pos hm, List.filter_append]
      simp only [List.filter_cons, hm, if_true, List.filter_nil]
      rw [List.getLast?_concat]
    · rw [if_neg hm, List.filter_append]
      simp only [List.filter_cons, hm, Bool.false_eq_true, if_false, List.filter_nil,
        List.append_nil]
      exact ihp r

/-- Across the streamed lines, the recorded reason is the LAST (line,
pattern) match in scan order. -/
lemma stopFold_last (reMatch : String → String → Bool) (sp : List String) :
    ∀ (ls : List String) (r : Option String),
      ls.foldl (fun r l => scanPatterns reMatch sp l r) r =
        match (ls.flatMap (fun l => sp.filter (fun p => reMatch p l))).getLast? with
        | some p => some ("Pattern matched: " ++ p)
        | none => r := by
  intro ls
  induction ls with
  | nil => intro r; simp
  | cons l ls1 ih =>
    intro r
    rw [List.foldl_cons, ih, List.flatMap_cons]
    cases hlast : (ls1.flatMap fun l => sp.filter (fun p => reMatch p l)).getLast? with
    | some p =>
      have hne : (ls1.flatMap fun l => sp.filter (fun p => reMatch p l)) ≠ [] := by
        intro hnil; rw [hnil] at hlast; simp at hlast
      rw [List.getLast?_append_of_ne_nil _ hne, hlast]
    | none =>
      have hnil : (ls1.flatMap fun l => sp.filter (fun p => reMatch p l)) = [] :=
        List.getLast?_eq_none_iff.mp hlast
      rw [hnil, List.append_nil]
      exact scanPatterns_last reMatch l sp r

/-- C4 (amended): for every invocation from which no exception escapes the
streaming loop (the invocation runs to process exit), each streamed line is
checked against every stop pattern (case-insensitive regular-expression
search, the abstract matcher); each match OVERWRITES stop_reason, so the
LAST matching line/pattern pair is the one recorded (not the first); a
match neither truncates the accumulated output nor ends the invocation
early: the output is all nonempty stripped lines and the exit code is the
process exit code, with success exactly on exit code 0. -/
theorem c4_stop_patterns_record_last_match (reMatch : String → String → Bool)
    (jparse : String → Option Json) (self : ClaudeRunner) (prompt : String)
    (sp lines : List String) (ec : Int)
    (h : (ClaudeRunner.stream_lines reMatch jparse sp (initAcc self) lines).2 = none) :
    (ClaudeRunner.run reMatch jparse self prompt sp lines ec).1.output =
        joinNL (effOutput lines) ∧
    (ClaudeRunner.run reMatch jparse self prompt sp lines ec).1.stop_reason =
        (((effOutput lines).flatMap
            (fun l => sp.filter (fun p => reMatch p l))).getLast?).map
          (fun p => "Pattern matched: " ++ p) ∧
    (ClaudeRunner.run reMatch jparse self prompt sp lines ec).1.exit_code = ec ∧
    (ClaudeRunner.run reMatch jparse self prompt sp lines ec).1.success =
        decide (ec = 0) := by
  obtain ⟨h1, h2, _⟩ := stream_lines_state reMatch jparse sp lines (initAcc self) h
  have hrun : (ClaudeRunner.run reMatch jparse self prompt sp lines ec).1 =
      ⟨decide (ec = 0), ec,
       joinNL ((ClaudeRunner.stream_lines reMatch jparse sp (initAcc self) lines).1.all_output),
       (ClaudeRunner.stream_lines reMatch jparse sp (initAcc self) lines).1.session_id,
       (ClaudeRunner.stream_lines reMatch jparse sp (initAcc self) lines).1.stop_reason,
       none⟩ := by
    simp only [ClaudeRunner.run]
    rw [h]
  rw [hrun]
  refine ⟨?_, ?_, rfl, rfl⟩
  · rw [h1]
    simp [initAcc]
  · rw [h2]
    rw [stopFold_last]
    cases ((effOutput lines).flatMap (fun l => sp.filter (fun p => reMatch p l))).getLast? <;>
      simp [initAcc]

/-- Counterexample for C4: two lines each matching one stop pattern; the
first matching line/pattern is stop-a, but the code records the LAST match
(stop-b), refuting the first-match reading of the claim. -/
theorem c4_counterexample :
    reSearchCI "stop-a" (rstrip "STOP-A hit") = true ∧
    (ClaudeRunner.run reSearchCI jnone st0 "p" ["stop-a", "stop-b"]
        ["STOP-A hit", "then STOP-B"] 0).1.stop_reason =
      some ("Pattern matched: " ++ "stop-b") ∧
    (ClaudeRunner.run reSearchCI jnone st0 "p" ["stop-a", "stop-b"]
        ["STOP-A hit", "then STOP-B"] 0).1.stop_reason ≠
      some ("Pattern matched: " ++ "stop-a") := by
  refine ⟨rfl, rfl, ?_⟩
  intro hcontra
  have : ("Pattern matched: " ++ "stop-b") = ("Pattern matched: " ++ "stop-a") := by
    have h1 : (ClaudeRunner.run reSearchCI jnone st0 "p" ["stop-a", "stop-b"]
        ["STOP-A hit", "then STOP-B"] 0).1.stop_reason =
      some ("Pattern matched: " ++ "stop-b") := rfl
    rw [h1] at hcontra
    exact Option.some.inj hcontra
  simp at this

/-- Witness for C4: two lines matching the two patterns case-insensitively;
the recorded reason is the last match and the output keeps both lines. -/
theorem c4_witness :
    (ClaudeRunner.run reSearchCI jnone st0 "p" ["alpha", "beta"]
        ["one ALPHA", "two BETA"] 0).1.output = "one ALPHA\ntwo BETA" ∧
    (ClaudeRunner.run reSearchCI jnone st0 "p" ["alpha", "beta"]
        ["one ALPHA", "two BETA"] 0).1.stop_reason = some "Pattern matched: beta" :=
  ⟨(c4_stop_patterns_record_last_match reSearchCI jnone st0 "p" ["alpha", "beta"]
      ["one ALPHA", "two BETA"] 0 rfl).1,
   (c4_stop_patterns_record_last_match reSearchCI jnone st0 "p" ["alpha", "beta"]
      ["one ALPHA", "two BETA"] 0 rfl).2.1⟩

/-- Counterexample for C8: a child process exiting with code 1 and no
output yields success = false but error = None — the error field is NOT
populated from the exit code. -/
theorem c8_counterexample :
    (ClaudeRunner.run reSearchCI jnone st0 "p" [] [] 1).1.success = false ∧
    (ClaudeRunner.run reSearchCI jnone st0 "p" [] [] 1).1.exit_code = 1 ∧
    (ClaudeRunner.run reSearchCI jnone st0 "p" [] [] 1).1.error = none :=
  ⟨rfl, rfl, rfl⟩

/-- C8 (amended): success = true holds exactly when the exit code is 0; on
the normal (no-exception) path the error field is left None even for
nonzero exit codes; error is populated only when an exception escapes the
streaming loop, in which case success = false and exit_code = -1. -/
theorem c8_success_iff_exit_zero (reMatch : String → String → Bool)
    (jparse : String → Option Json) (self : ClaudeRunner) (prompt : String)
    (sp lines : List String) (ec : Int) :
    ((ClaudeRunner.stream_lines reMatch jparse sp (initAcc self) lines).2 = none →
      (ClaudeRunner.run reMatch jparse self prompt sp lines ec).1.success =
          decide (ec = 0) ∧
      (ClaudeRunner.run reMatch jparse self prompt sp lines ec).1.exit_code = ec ∧
      (ClaudeRunner.run reMatch jparse self prompt sp lines ec).1.error = none) ∧
    (∀ e, (ClaudeRunner.stream_lines reMatch jparse sp (initAcc self) lines).2 = some e →
      (ClaudeRunner.run reMatch jparse self prompt sp lines ec).1.success = false ∧
      (ClaudeRunner.run reMatch jparse self prompt sp lines ec).1.exit_code = -1 ∧
      (ClaudeRunner.run reMatch jparse self prompt sp lines ec).1.error = some e) := by
  constructor
  · intro h
    simp only [ClaudeRunner.run]
    rw [h]
    exact ⟨rfl, rfl, rfl⟩
  · intro e h
    simp only [ClaudeRunner.run]
    rw [h]
    exact ⟨rfl, rfl, rfl⟩

/-- Witness for C8: a diagnostic line streams without exception and exit
code 5 gives success = false with error still None. -/
theorem c8_witness :
    (ClaudeRunner.stream_lines reSearchCI jnone [] (initAcc st0) ["hello"]).2 = none ∧
    (ClaudeRunner.run reSearchCI jnone st0 "p" [] ["hello"] 5).1.success = false ∧
    (ClaudeRunner.run reSearchCI jnone st0 "p" [] ["hello"] 5).1.error = none :=
  ⟨rfl,
   ((c8_success_iff_exit_zero reSearchCI jnone st0 "p" [] ["hello"] 5).1 rfl).1,
   ((c8_success_iff_exit_zero reSearchCI jnone st0 "p" [] ["hello"] 5).1 rfl).2.2⟩

/-- On a system/init object, the formatter assigns the object's session_id
value (default "") to self._session_id; the assignment precedes the
f-string slice, so it happens even when the slice raises. -/
lemma format_stream_event_sid_init (kvs : List (String × Json)) (sid : Option Json)
    (h : isInitEvent kvs = true) :
    (ClaudeRunner.format_stream_event (Json.obj kvs) sid).1 =
      some (dictGet kvs "session_id" (Json.str "")) := by
  unfold isInitEvent at h
  unfold ClaudeRunner.format_stream_event
  dsimp only
  rw [h]
  rw [if_pos rfl]
  cases hsl : slice8 (dictGet kvs "session_id" (Json.str "")) <;> rfl

/-- For a parsed JSON object that is not a system/init event, the formatter
leaves self._session_id untouched (only the init branch assigns it). -/
lemma format_stream_event_sid_not_init (kvs : List (String × Json)) (sid : Option Json)
    (h : isInitEvent kvs = false) :
    (ClaudeRunner.format_stream_event (Json.obj kvs) sid).1 = sid := by
  unfold isInitEvent at h
  unfold ClaudeRunner.format_stream_event
  dsimp only
  rw [h]
  simp only [Bool.false_eq_true, if_false]
  split_ifs <;> try rfl
  cases hf : formatF4 (dictGet kvs "total_cost_usd" (Json.num 0)) <;> rfl

/-- _format_line on a nonblank line that parses to a JSON object delegates
the session assignment to _format_stream_event. -/
lemma format_line_sid_obj (jparse : String → Option Json) (line : String)
    (sid : Option Json) (kvs : List (String × Json))
    (hblank : pstrip line ≠ "") (hparse : jparse line = some (Json.obj kvs)) :
    (ClaudeRunner.format_line jparse line sid).1 =
      (ClaudeRunner.format_stream_event (Json.obj kvs) sid).1 := by
  unfold ClaudeRunner.format_line
  rw [if_neg hblank, hparse]

/-- Counterexample for C10, refuting it at two concrete inputs: (a) the
line whose only object key is "note" contains the substring session_id
(inside the value) and is processed by the invocation, yet the stored token
is NOT overwritten — it still holds the prior value "old"; (b) a
system/init line that does NOT contain the substring (and carries no
session id) nevertheless overwrites the stored token with the empty string
via the formatter's init branch, so the stored token is not the session id
of the last line containing one. -/
theorem c10_counterexample :
    strContains "\x7b\"note\": \"session_id\"\x7d" "session_id" = true ∧
    ((ClaudeRunner.run reSearchCI jnote stOld "p" []
        ["\x7b\"note\": \"session_id\"\x7d"] 0).2).session_id =
      some (Json.str "old") ∧
    strContains "\x7b\"type\": \"system\", \"subtype\": \"init\"\x7d"
      "session_id" = false ∧
    ((ClaudeRunner.run reSearchCI jinit stOld "p" []
        ["\x7b\"type\": \"system\", \"subtype\": \"init\"\x7d"] 0).2).session_id =
      some (Json.str "") :=
  ⟨rfl, rfl, rfl, rfl⟩

/-- C10 (amended): after an invocation whose stream raises no exception,
the stored session token is the left fold, over the processed (nonempty,
right-stripped) lines, of a per-line update that applies the formatter
first and then _try_extract_session_id.  Per processed line: a line parsing
to a system/init JSON object stores its session_id value — or the empty
string when the key is absent, even without the substring session_id in the
line; a line parsing to any other JSON object with a session_id key stores
that value when the line contains the substring (updates are not limited to
the initialization event); a line parsing to a non-init object without the
key leaves the token unchanged; a line json.loads rejects stores the regex
fallback capture when the line contains the substring and the regex
matches, and is left unchanged when the substring is absent or the regex
does not match.  The stored token survives an invocation that ultimately
fails, so the next command built resumes with it. -/
theorem c10_session_token_update_rule :
    (∀ (reMatch : String → String → Bool) (jparse : String → Option Json)
        (self : ClaudeRunner) (prompt : String) (sp lines : List String) (ec : Int),
      (ClaudeRunner.stream_lines reMatch jparse sp (initAcc self) lines).2 = none →
      ((ClaudeRunner.run reMatch jparse self prompt sp lines ec).2).session_id =
        (effOutput lines).foldl (fun s l => sessionUpdate jparse l s)
          self.session_id) ∧
    (∀ (jparse : String → Option Json) (line : String) (sid : Option Json)
        (kvs : List (String × Json)) (v : Json),
      pstrip line ≠ "" →
      jparse line = some (Json.obj kvs) →
      isInitEvent kvs = true →
      jsonLookup kvs "session_id" = some v →
      sessionUpdate jparse line sid = some v) ∧
    (∀ (jparse : String → Option Json) (line : String) (sid : Option Json)
        (kvs : List (String × Json)),
      pstrip line ≠ "" →
      jparse line = some (Json.obj kvs) →
      isInitEvent kvs = true →
      jsonLookup kvs "session_id" = none →
      sessionUpdate jparse line sid = some (Json.str "")) ∧
    (∀ (jparse : String → Option Json) (line : String) (sid : Option Json)
        (kvs : List (String × Json)) (v : Json),
      pstrip line ≠ "" →
      jparse line = some (Json.obj kvs) →
      isInitEvent kvs = false →
      strContains line "session_id" = true →
      jsonLookup kvs "session_id" = some v →
      sessionUpdate jparse line sid = some v) ∧
    (∀ (jparse : String → Option Json) (line : String) (sid : Option Json)
        (kvs : List (String × Json)),
      pstrip line ≠ "" →
      jparse line = some (Json.obj kvs) →
      isInitEvent kvs = false →
      jsonLookup kvs "session_id" = none →
      sessionUpdate jparse line sid = sid) ∧
    (∀ (jparse : String → Option Json) (line : String) (sid : Option Json)
        (tok : String),
      jparse line = none →
      strContains line "session_id" = true →
      findSessionId line.toList = some tok →
      sessionUpdate jparse line sid = some (Json.str tok)) ∧
    (∀ (jparse : String → Option Json) (line : String) (sid : Option Json),
      jparse line = none →
      (strContains line "session_id" = false ∨ findSessionId line.toList = none) →
      sessionUpdate jparse line sid = sid) ∧
    (∀ (reMatch : String → String → Bool) (jparse : String → Option Json)
        (self : ClaudeRunner) (prompt : String) (sp lines : List String)
        (ec : Int) (t prompt2 : String),
      (ClaudeRunner.run reMatch jparse self prompt sp lines ec).1.success = false →
      ((ClaudeRunner.run reMatch jparse self prompt sp lines ec).2).session_id =
        some (Json.str t) →
      t ≠ "" →
      ClaudeRunner.build_command
          (ClaudeRunner.run reMatch jparse self prompt sp lines ec).2 prompt2 true =
        ClaudeRunner.build_command
            ((ClaudeRunner.run reMatch jparse self prompt sp lines ec).2).clear_session
            prompt2 true ++ [Json.str "--resume", Json.str t]) := by
  refine ⟨?fold, ?initkey, ?initmiss, ?objkey, ?objmiss, ?regex, ?regmiss, ?survive⟩
  · intro reMatch jparse self prompt sp lines ec hexc
    obtain ⟨_, _, h3⟩ := stream_lines_state reMatch jparse sp lines (initAcc self) hexc
    have hst : (ClaudeRunner.run reMatch jparse self prompt sp lines ec).2 =
        { self with session_id :=
            (ClaudeRunner.stream_lines reMatch jparse sp (initAcc self) lines).1.session_id } := by
      simp only [ClaudeRunner.run]
      rw [hexc]
    rw [hst]
    dsimp only
    rw [h3]
    rfl
  · intro jparse line sid kvs v hblank hparse hinit hlookup
    unfold sessionUpdate
    rw [format_line_sid_obj jparse line sid kvs hblank hparse,
      format_stream_event_sid_init kvs sid hinit]
    have hval : dictGet kvs "session_id" (Json.str "") = v := by
      unfold dictGet
      rw [hlookup]
      rfl
    rw [hval]
    by_cases hsub : strContains line "session_id" = true
    · unfold ClaudeRunner.try_extract_session_id
      rw [hsub, hparse]
      dsimp only
      rw [hlookup]
      rfl
    · have hsub2 : strContains line "session_id" = false := by simpa using hsub
      unfold ClaudeRunner.try_extract_session_id
      rw [hsub2]
      simp
  · intro jparse line sid kvs hblank hparse hinit hlookup
    unfold sessionUpdate
    rw [format_line_sid_obj jparse line sid kvs hblank hparse,
      format_stream_event_sid_init kvs sid hinit]
    have hval : dictGet kvs "session_id" (Json.str "") = Json.str "" := by
      unfold dictGet
      rw [hlookup]
      rfl
    rw [hval]
    by_cases hsub : strContains line "session_id" = true
    · unfold ClaudeRunner.try_extract_session_id
      rw [hsub, hparse]
      dsimp only
      rw [hlookup]
      rfl
    · have hsub2 : strContains line "session_id" = false := by simpa using hsub
      unfold ClaudeRunner.try_extract_session_id
      rw [hsub2]
      simp
  · intro jparse line sid kvs v hblank hparse hinit hsub hlookup
    unfold sessionUpdate
    rw [format_line_sid_obj jparse line sid kvs hblank hparse,
      format_stream_event_sid_not_init kvs sid hinit]
    unfold ClaudeRunner.try_extract_session_id
    rw [hsub, hparse]
    dsimp only
    rw [hlookup]
    rfl
  · intro jparse line sid kvs hblank hparse hinit hlookup
    unfold sessionUpdate
    rw [format_line_sid_obj jparse line sid kvs hblank hparse,
      format_stream_event_sid_not_init kvs sid hinit]
    by_cases hsub : strContains line "session_id" = true
    · unfold ClaudeRunner.try_extract_session_id
      rw [hsub, hparse]
      dsimp only
      rw [hlookup]
      rfl
    · have hsub2 : strContains line "session_id" = false := by simpa using hsub
      unfold ClaudeRunner.try_extract_session_id
      rw [hsub2]
      simp
  · intro jparse line sid tok hparse hsub hregex
    unfold sessionUpdate
    rw [format_line_none jparse line sid hparse]
    dsimp only
    unfold ClaudeRunner.try_extract_session_id
    rw [hsub, hparse]
    dsimp only
    unfold regexFallback
    rw [hregex]
    rfl
  · intro jparse line sid hparse hcase
    unfold sessionUpdate
    rw [format_line_none jparse line sid hparse]
    dsimp only
    cases hcase with
    | inl hsub =>
      unfold ClaudeRunner.try_extract_session_id
      rw [hsub]
      simp
    | inr hreg =>
      by_cases hsub : strContains line "session_id" = true
      · unfold ClaudeRunner.try_extract_session_id
        rw [hsub, hparse]
        dsimp only
        unfold regexFallback
        rw [hreg]
        rfl
      · have hsub2 : strContains line "session_id" = false := by simpa using hsub
        unfold ClaudeRunner.try_extract_session_id
        rw [hsub2]
        simp
  · intro reMatch jparse self prompt sp lines ec t prompt2 _ hsid ht
    unfold ClaudeRunner.build_command ClaudeRunner.clear_session
    rw [hsid]
    simp [jsonTruthy, ht]

/-- Witness for C10: a stream whose only line carries a session_id object
key, with the process exiting nonzero: the run fails, the per-line fold
leaves the stored token at "abc", and the next command resumes with it. -/
theorem c10_witness :
    (ClaudeRunner.run reSearchCI jsid st0 "p" []
        ["\x7b\"session_id\": \"abc\"\x7d"] 1).1.success = false ∧
    ((ClaudeRunner.run reSearchCI jsid st0 "p" []
        ["\x7b\"session_id\": \"abc\"\x7d"] 1).2).session_id =
      (effOutput ["\x7b\"session_id\": \"abc\"\x7d"]).foldl
        (fun s l => sessionUpdate jsid l s) st0.session_id ∧
    ((ClaudeRunner.run reSearchCI jsid st0 "p" []
        ["\x7b\"session_id\": \"abc\"\x7d"] 1).2).session_id = some (Json.str "abc") ∧
    ClaudeRunner.build_command
        (ClaudeRunner.run reSearchCI jsid st0 "p" []
          ["\x7b\"session_id\": \"abc\"\x7d"] 1).2 "again" true =
      ClaudeRunner.build_command
          ((ClaudeRunner.run reSearchCI jsid st0 "p" []
            ["\x7b\"session_id\": \"abc\"\x7d"] 1).2).clear_session "again" true ++
        [Json.str "--resume", Json.str "abc"] :=
  ⟨rfl,
    c10_session_token_update_rule.1 reSearchCI jsid st0 "p" []
      ["\x7b\"session_id\": \"abc\"\x7d"] 1 rfl,
    rfl,
    c10_session_token_update_rule.2.2.2.2.2.2.2 reSearchCI jsid st0 "p" []
      ["\x7b\"session_id\": \"abc\"\x7d"] 1 "abc" "again" rfl rfl (by decide)⟩

end Claudestine
